import Mathlib

/-!
Verification of the Nettileffa movie-catalog client against its
specification.  The definitions below are shallow embeddings of the
TypeScript source (Zod schemas, request builder, query-cache keys,
error-message construction, retry configuration, debounce, text
highlighting, actor-list operations and star rendering).  Propositional
restatements of the specification text are given alongside, and each
claim is settled by a theorem relating the two.
-/

namespace Nettileffa

/-- A person record as used for actors and directors
(web/src/lib/schemas.ts, personSchema). -/
structure Person where
  firstName : String
  lastName : String
deriving DecidableEq, Repr

/-- The MovieCreate request body
(web/src/lib/schemas.ts, movieCreateSchema shape). Numbers are embedded
as integers; the Zod int() refinement rejects non-integers, so integer
inputs are the only ones the range checks ever see. -/
structure MovieCreate where
  name : String
  year : Int
  age_limit : Int
  rating : Int
  synopsis : Option String
  genres : List String
  actors : Option (List Person)
  director : Option Person
deriving DecidableEq, Repr

/-- Embedding of personSchema: firstName and lastName each with
z.string().min(1).max(100). -/
def personAccepts (p : Person) : Bool :=
  decide (1 ≤ p.firstName.length) && decide (p.firstName.length ≤ 100) &&
  decide (1 ≤ p.lastName.length) && decide (p.lastName.length ≤ 100)

/-- Embedding of movieCreateSchema: name min(1).max(255), year
int().min(1895).max(3000), age_limit int().min(0).max(18), rating
int().min(0).max(5), synopsis optional, genres array(string).min(1),
actors optional array of personSchema, director optional personSchema. -/
def movieCreateAccepts (b : MovieCreate) : Bool :=
  decide (1 ≤ b.name.length) && decide (b.name.length ≤ 255) &&
  decide (1895 ≤ b.year) && decide (b.year ≤ 3000) &&
  decide (0 ≤ b.age_limit) && decide (b.age_limit ≤ 18) &&
  decide (0 ≤ b.rating) && decide (b.rating ≤ 5) &&
  decide (1 ≤ b.genres.length) &&
  (match b.actors with
   | none => true
   | some l => l.all personAccepts) &&
  (match b.director with
   | none => true
   | some p => personAccepts p)

/-- The validation constraints on a person as the specification states
them: both names non-empty and at most 100 characters. -/
def personOk (p : Person) : Prop :=
  1 ≤ p.firstName.length ∧ p.firstName.length ≤ 100 ∧
  1 ≤ p.lastName.length ∧ p.lastName.length ≤ 100

/-- The validation constraints on a MovieCreate body as the
specification states them, together with a non-empty genres list. -/
def movieCreateOk (b : MovieCreate) : Prop :=
  1 ≤ b.name.length ∧ b.name.length ≤ 255 ∧
  1895 ≤ b.year ∧ b.year ≤ 3000 ∧
  0 ≤ b.age_limit ∧ b.age_limit ≤ 18 ∧
  0 ≤ b.rating ∧ b.rating ≤ 5 ∧
  b.genres ≠ [] ∧
  (∀ l, b.actors = some l → ∀ p, p ∈ l → personOk p) ∧
  (∀ p, b.director = some p → personOk p)

theorem personAccepts_iff (p : Person) : personAccepts p = true ↔ personOk p := by
  unfold personAccepts personOk
  simp [Bool.and_eq_true, and_assoc]

end Nettileffa

namespace Nettileffa

/-- Claim C1: movieCreateSchema accepts a body exactly when the name is
non-empty and at most 255 characters, the year is in [1895, 3000], the
age limit is in [0, 18], the rating is in [0, 5], every actor and the
director (when given) have non-empty names of at most 100 characters,
and the genres list is non-empty. -/
theorem movieCreateAccepts_iff_ok (b : MovieCreate) :
    movieCreateAccepts b = true ↔ movieCreateOk b := by
  have hg : 1 ≤ b.genres.length ↔ b.genres ≠ [] := List.length_pos
  unfold movieCreateAccepts movieCreateOk
  cases hA : b.actors <;> cases hD : b.director <;>
    simp [Bool.and_eq_true, and_assoc, List.all_eq_true, personAccepts_iff, hg]

/-- A fully populated MovieCreate body satisfying every validation
constraint. -/
def fullValidBody : MovieCreate :=
  { name := "Alien", year := 1979, age_limit := 16, rating := 5,
    synopsis := some "Space horror", genres := ["Horror"],
    actors := some [⟨"Sigourney", "Weaver"⟩],
    director := some ⟨"Ridley", "Scott"⟩ }

/-- Witness for C1 at a concrete accepted body. -/
theorem movieCreateAccepts_iff_ok_witness : movieCreateOk fullValidBody :=
  (movieCreateAccepts_iff_ok fullValidBody).mp (by decide)

/-- A MovieCreate body whose genres list is non-empty but holds only the
empty string; every other field is within range. -/
def emptyStringGenresBody : MovieCreate :=
  { name := "A", year := 2000, age_limit := 0, rating := 0,
    synopsis := none, genres := [""], actors := none, director := none }

/-- Claim C2, counterexample: the schema accepts a body whose genres
list consists only of empty strings, though the claim says such a body
is rejected. -/
theorem genres_empty_string_accepted :
    movieCreateAccepts emptyStringGenresBody = true ∧
    emptyStringGenresBody.genres ≠ [] ∧
    ∀ g ∈ emptyStringGenresBody.genres, g = "" := by
  refine ⟨by decide, by decide, ?_⟩
  intro g hg
  simpa [emptyStringGenresBody] using hg

/-- Claim C2, amended: the schema accepts the genres field only if it
contains at least one string; the contents of the strings are not
checked, so empty strings count. -/
theorem accepts_implies_genres_nonempty (b : MovieCreate)
    (h : movieCreateAccepts b = true) : b.genres ≠ [] :=
  ((movieCreateAccepts_iff_ok b).mp h).2.2.2.2.2.2.2.2.1

/-- Witness for the amended C2 theorem at a concrete accepted body. -/
theorem accepts_implies_genres_nonempty_witness :
    emptyStringGenresBody.genres ≠ [] :=
  accepts_implies_genres_nonempty emptyStringGenresBody (by decide)

/-- Sort fields of the list endpoint (web/src/lib/schemas.ts,
MovieFilters.sort union type). -/
inductive SortField
  | year
  | rating
  | name
deriving DecidableEq, Repr

/-- Sort orders of the list endpoint (MovieFilters.order union type). -/
inductive SortOrder
  | asc
  | desc
deriving DecidableEq, Repr

/-- The MovieFilters value held by the movies page; every field is
optional (web/src/lib/schemas.ts, MovieFilters). -/
structure MovieFilters where
  search : Option String
  sort : Option SortField
  order : Option SortOrder
  limit : Option Int
  offset : Option Int
deriving DecidableEq, Repr

/-- String serialisation of a sort field, as the union literals are sent
on the wire. -/
def sortFieldParam : SortField → String
  | .year => "year"
  | .rating => "rating"
  | .name => "name"

/-- String serialisation of a sort order. -/
def sortOrderParam : SortOrder → String
  | .asc => "asc"
  | .desc => "desc"

/-- Embedding of the URLSearchParams built by getMovies
(web/src/lib/api.ts lines 13-19): search is set when truthy (present and
non-empty), sort and order when present, limit and offset when not
undefined. -/
def getMoviesParams (f : MovieFilters) : List (String × String) :=
  (match f.search with
   | some s => if s = "" then [] else [("search", s)]
   | none => []) ++
  (match f.sort with
   | some s => [("sort", sortFieldParam s)]
   | none => []) ++
  (match f.order with
   | some o => [("order", sortOrderParam o)]
   | none => []) ++
  (match f.limit with
   | some n => [("limit", toString n)]
   | none => []) ++
  (match f.offset with
   | some n => [("offset", toString n)]
   | none => [])

/-- The initial filter state of MoviesPage
(web/src/pages/MoviesPage.tsx lines 14-18): sort name, order asc,
limit 20; search and offset are absent. -/
def moviesPageInitialFilters : MovieFilters :=
  { search := none, sort := some .name, order := some .asc,
    limit := some 20, offset := none }

/-- A parameter entry is consistent with a filter value when its name is
one of the five contract names and the corresponding field is present. -/
def paramConsistent (f : MovieFilters) (p : String × String) : Bool :=
  (p.1 == "search" && f.search.isSome) ||
  (p.1 == "sort" && f.sort.isSome) ||
  (p.1 == "order" && f.order.isSome) ||
  (p.1 == "limit" && f.limit.isSome) ||
  (p.1 == "offset" && f.offset.isSome)

/-- Claim C3: getMovies only ever sets the contract parameter names
search, sort, order, limit and offset, and only when the corresponding
filter field is present; and the movies-page initial query serialises to
exactly sort=name, order=asc, limit=20 with offset omitted. -/
theorem getMovies_params_contract :
    (∀ f : MovieFilters, (getMoviesParams f).all (paramConsistent f) = true) ∧
    getMoviesParams moviesPageInitialFilters =
      [("sort", "name"), ("order", "asc"), ("limit", "20")] := by
  constructor
  · intro f
    unfold getMoviesParams
    rcases f with ⟨s, so, o, l, off⟩
    rcases s with _ | s <;> rcases so with _ | so <;> rcases o with _ | o <;>
      rcases l with _ | l <;> rcases off with _ | off <;>
      simp [paramConsistent, List.all_eq_true]
  · rfl

/-- One element of a TanStack Query key array as used by the hooks:
a string literal, a filters object, or a numeric id. -/
inductive KeyPart
  | str : String → KeyPart
  | filt : MovieFilters → KeyPart
  | num : Int → KeyPart
deriving DecidableEq, Repr

/-- Query key of the movie list for a filter value
(web/src/hooks/useMovies.ts line 14). -/
def moviesListKey (f : MovieFilters) : List KeyPart :=
  [.str "movies", .filt f]

/-- Query key of a single movie (useMovies.ts line 39). -/
def movieDetailKey (id : Int) : List KeyPart :=
  [.str "movies", .num id]

/-- TanStack Query key matching: a filter key matches every cache key it
is a leading segment of. -/
def keyMatches : List KeyPart → List KeyPart → Bool
  | [], _ => true
  | _ :: _, [] => false
  | p :: ps, k :: ks => p == k && keyMatches ps ks

/-- A query cache, mapping each key to whether its entry is fresh. -/
def QueryCache : Type := List KeyPart → Bool

/-- invalidateQueries: every cache entry whose key matches the given
filter key is marked stale. -/
def invalidateQueries (pat : List KeyPart) (c : QueryCache) : QueryCache :=
  fun k => if keyMatches pat k then false else c k

/-- The onSuccess callback of useCreateMovie (useMovies.ts line 29):
invalidates all keys under "movies". -/
def createOnSuccess (c : QueryCache) : QueryCache :=
  invalidateQueries [.str "movies"] c

/-- The onSuccess callback of useUpdateMovie (useMovies.ts lines 55-56):
invalidates all keys under "movies" and the updated movie's detail
key. -/
def updateOnSuccess (id : Int) (c : QueryCache) : QueryCache :=
  invalidateQueries (movieDetailKey id) (invalidateQueries [.str "movies"] c)

/-- Claim C4: the list cache key determines the filter tuple, so two
distinct MovieFilters values occupy distinct cache entries; and after a
successful create or update mutation every movie-list entry is stale. -/
theorem cache_key_injective_and_invalidated :
    (∀ f g : MovieFilters, moviesListKey f = moviesListKey g ↔ f = g) ∧
    (∀ (c : QueryCache) (f : MovieFilters),
      createOnSuccess c (moviesListKey f) = false) ∧
    (∀ (c : QueryCache) (id : Int) (f : MovieFilters),
      updateOnSuccess id c (moviesListKey f) = false) := by
  refine ⟨fun f g => ?_, fun c f => ?_, fun c id f => ?_⟩
  · simp [moviesListKey]
  · simp [createOnSuccess, invalidateQueries, moviesListKey, keyMatches]
  · simp only [updateOnSuccess, invalidateQueries, moviesListKey,
      movieDetailKey, keyMatches]
    split <;> simp

/-- The error message thrown by createMovie on a non-OK response
(web/src/lib/api.ts line 45): the parsed detail field when it is a
non-empty string, else a generic message from the status text.  The
none case covers both an absent detail field and an unparseable body. -/
def createMovieErrorMessage (detail : Option String) (statusText : String) :
    String :=
  match detail with
  | some d => if d = "" then "Failed to create movie: " ++ statusText else d
  | none => "Failed to create movie: " ++ statusText

/-- The error message thrown by updateMovie on a non-OK response
(web/src/lib/api.ts line 78). -/
def updateMovieErrorMessage (detail : Option String) (statusText : String) :
    String :=
  match detail with
  | some d => if d = "" then "Failed to update movie: " ++ statusText else d
  | none => "Failed to update movie: " ++ statusText

/-- Claim C5, counterexample: when the response body carries a present
but empty detail field, the thrown message is the generic one, not the
empty detail verbatim. -/
theorem empty_detail_not_verbatim :
    createMovieErrorMessage (some "") "Bad Request" =
      "Failed to create movie: Bad Request" ∧
    updateMovieErrorMessage (some "") "Bad Request" =
      "Failed to update movie: Bad Request" ∧
    "Failed to create movie: Bad Request" ≠ "" := by
  refine ⟨rfl, rfl, by decide⟩

/-- Claim C5, amended: the thrown error carries the detail field
verbatim when it is present and non-empty, and otherwise a generic
failure message built from the HTTP status text. -/
theorem error_message_detail_or_generic (d statusText : String) :
    (d ≠ "" → createMovieErrorMessage (some d) statusText = d ∧
              updateMovieErrorMessage (some d) statusText = d) ∧
    createMovieErrorMessage none statusText =
      "Failed to create movie: " ++ statusText ∧
    updateMovieErrorMessage none statusText =
      "Failed to update movie: " ++ statusText := by
  refine ⟨fun h => ⟨?_, ?_⟩, rfl, rfl⟩ <;>
    simp [createMovieErrorMessage, updateMovieErrorMessage, h]

/-- Witness for the amended C5 theorem at a concrete detail and status
text. -/
theorem error_message_detail_or_generic_witness :
    createMovieErrorMessage (some "boom") "Bad Request" = "boom" ∧
    updateMovieErrorMessage none "Bad Request" =
      "Failed to update movie: " ++ "Bad Request" :=
  ⟨((error_message_detail_or_generic "boom" "Bad Request").1 (by decide)).1,
   (error_message_detail_or_generic "boom" "Bad Request").2.2⟩

/-- The retry budget configured for queries on the QueryClient
(web/src/App.tsx, defaultOptions.queries.retry set to 1). -/
def queriesRetryBudget : Nat := 1

/-- The retry budget in force for mutations: the repository configures
none, and TanStack Query performs no automatic retry of mutations by
default. -/
def mutationsRetryBudget : Nat := 0

/-- Number of attempts the query layer performs for a call with the
given retry budget: the call is attempted once, and after a failure it
is retried while budget remains.  The outcome function says whether the
n-th attempt succeeds. -/
def attemptsMade : Nat → (Nat → Bool) → Nat
  | 0, _ => 1
  | b + 1, outcome => if outcome 0 then 1 else 1 + attemptsMade b (fun n => outcome (n + 1))

/-- Claim C6: a failed list/read query is retried at most once (at most
two attempts under the configured budget of 1), and a createMovie or
updateMovie mutation is never retried (exactly one attempt). -/
theorem retry_budget_bounds :
    (∀ outcome : Nat → Bool, attemptsMade queriesRetryBudget outcome ≤ 2) ∧
    (∀ outcome : Nat → Bool, attemptsMade mutationsRetryBudget outcome = 1) := by
  constructor
  · intro outcome
    unfold queriesRetryBudget attemptsMade
    split <;> simp [attemptsMade]
  · intro outcome
    rfl

/-- The debounce delay of the search box, in milliseconds
(web/src/components/SearchBar.tsx line 98). -/
def searchDebounceMs : Nat := 300

/-- Emissions of the debounced search effect over a timed sequence of
input changes (SearchBar.tsx lines 95-101): each change starts a timer
for delay milliseconds and the effect cleanup of the next change clears
a timer that has not yet fired; a timer that reaches its firing time
before the next change emits the value it captured.  The final change's
timer always fires. -/
def debounceEmits (delay : Nat) : List (Nat × String) → List (Nat × String)
  | [] => []
  | [(t, v)] => [(t + delay, v)]
  | (t, v) :: (u, w) :: rest =>
      if t + delay ≤ u then
        (t + delay, v) :: debounceEmits delay ((u, w) :: rest)
      else
        debounceEmits delay ((u, w) :: rest)

theorem debounceEmits_close (delay : Nat) :
    ∀ (changes : List (Nat × String)) (h : changes ≠ []),
      changes.Chain' (fun a b => b.1 < a.1 + delay) →
      debounceEmits delay changes =
        [((changes.getLast h).1 + delay, (changes.getLast h).2)] := by
  intro changes
  induction changes with
  | nil => intro h; exact absurd rfl h
  | cons a rest ih =>
    intro _ hchain
    match rest, ih with
    | [], _ =>
      simp [debounceEmits]
    | (u, w) :: rest2, ih =>
      have hlt : u < a.1 + delay := (List.chain'_cons.mp hchain).1
      have hnot : ¬ a.1 + delay ≤ u := Nat.not_le.mpr hlt
      have htail := ih (by simp) (List.chain'_cons.mp hchain).2
      calc debounceEmits delay (a :: (u, w) :: rest2)
          = debounceEmits delay ((u, w) :: rest2) := by
            rcases a with ⟨t, v⟩
            simp [debounceEmits, hnot]
        _ = _ := by
            rw [htail]
            simp [List.getLast_cons]

/-- Claim C7: when consecutive search-input changes are less than 300 ms
apart, the debounced effect emits exactly once, 300 ms after the final
change, carrying the final input value. -/
theorem debounce_single_emission (changes : List (Nat × String))
    (h : changes ≠ [])
    (hclose : changes.Chain' (fun a b => b.1 < a.1 + searchDebounceMs)) :
    debounceEmits searchDebounceMs changes =
      [((changes.getLast h).1 + searchDebounceMs, (changes.getLast h).2)] :=
  debounceEmits_close searchDebounceMs changes h hclose

/-- Witness for C7: two changes 100 ms apart produce one emission 300 ms
after the second change, carrying the second value. -/
theorem debounce_single_emission_witness :
    debounceEmits searchDebounceMs [(0, "a"), (100, "al")] = [(400, "al")] := by
  have h := debounce_single_emission [(0, "a"), (100, "al")] (by decide)
    (by simp [searchDebounceMs])
  simpa using h

/-- Case-insensitive character comparison, modelling the i flag of the
highlight regular expression. -/
def lowerEq (a b : Char) : Bool := a.toLower == b.toLower

/-- Whether the pattern matches case-insensitively at the front of the
text. -/
def ciMatchAt : List Char → List Char → Bool
  | [], _ => true
  | _ :: _, [] => false
  | p :: ps, c :: cs => lowerEq p c && ciMatchAt ps cs

/-- Worker of the highlight split: scans the text left to right; at each
leftmost case-insensitive occurrence of the pattern it emits the pending
part and the matched slice of the original text, as
text.split(new RegExp(..., with flags g and i)) does for a pattern with
a capture group and no metacharacters. -/
def ciSplitGo (pat : List Char) (acc : List Char) (text : List Char) :
    List (List Char) :=
  match text with
  | [] => [acc.reverse]
  | c :: rest =>
      if h : pat ≠ [] ∧ ciMatchAt pat (c :: rest) = true then
        acc.reverse :: (c :: rest).take pat.length ::
          ciSplitGo pat [] ((c :: rest).drop pat.length)
      else
        ciSplitGo pat (c :: acc) rest
termination_by text.length
decreasing_by
  · have hp : 1 ≤ pat.length := by
      cases hpat : pat with
      | nil => exact absurd hpat h.1
      | cons a l => simp
    simp only [List.length_drop, List.length_cons]
    omega
  · simp

/-- The parts array computed by HighlightText for a non-empty,
metacharacter-free highlight (web/src/pages/AddMoviePage.tsx line 270). -/
def highlightParts (text highlightTerm : List Char) : List (List Char) :=
  ciSplitGo highlightTerm [] text

theorem ciSplitGo_flatten (pat : List Char) :
    ∀ (acc text : List Char),
      (ciSplitGo pat acc text).flatten = acc.reverse ++ text := by
  intro acc text
  induction acc, text using ciSplitGo.induct pat with
  | case1 acc => simp [ciSplitGo]
  | case2 acc c rest h ih =>
      rw [ciSplitGo]
      simp only [dif_pos h, List.flatten_cons]
      rw [ih]
      simp [List.take_append_drop]
  | case3 acc c rest h ih =>
      rw [ciSplitGo]
      rw [dif_neg h, ih]
      simp

/-- Claim C8: for every text and every non-empty metacharacter-free
highlight, the parts produced by the case-insensitive split of
HighlightText concatenate to exactly the original text. -/
theorem highlightParts_join (text highlightTerm : List Char)
    (h : highlightTerm ≠ []) :
    (highlightParts text highlightTerm).flatten = text := by
  simpa using ciSplitGo_flatten highlightTerm [] text

/-- Witness for C8 on a concrete text and highlight. -/
theorem highlightParts_join_witness :
    (highlightParts "Alien Again".data "alien".data).flatten =
      "Alien Again".data :=
  highlightParts_join "Alien Again".data "alien".data (by decide)

/-- Whether two persons carry the same (firstName, lastName) pair, as
addActor and removeActor compare them
(web/src/pages/MovieFormPage, lines 141-143 and 154-155). -/
def samePerson (a b : Person) : Bool :=
  a.firstName == b.firstName && a.lastName == b.lastName

theorem samePerson_iff (a b : Person) : samePerson a b = true ↔ a = b := by
  cases a; cases b
  simp [samePerson, Person.mk.injEq, Bool.and_eq_true]

/-- Embedding of addActor: appends the actor unless one with the same
name pair is already selected. -/
def addActor (actor : Person) (selected : List Person) : List Person :=
  if selected.any (fun a => samePerson a actor) then selected
  else selected ++ [actor]

/-- Embedding of removeActor: keeps exactly the entries whose name pair
differs from the removed actor. -/
def removeActor (actor : Person) (selected : List Person) : List Person :=
  selected.filter (fun a => !(samePerson a actor))

/-- A UI interaction on the selected-actors list. -/
inductive ActorOp
  | add : Person → ActorOp
  | remove : Person → ActorOp

/-- Applies a sequence of addActor/removeActor calls to the
selected-actors list. -/
def applyActorOps : List ActorOp → List Person → List Person
  | [], l => l
  | .add p :: ops, l => applyActorOps ops (addActor p l)
  | .remove p :: ops, l => applyActorOps ops (removeActor p l)

theorem addActor_nodup (a : Person) (l : List Person) (h : l.Nodup) :
    (addActor a l).Nodup := by
  unfold addActor
  split
  · exact h
  · next hany =>
    have hnot : a ∉ l := by
      intro hmem
      exact hany (List.any_eq_true.mpr ⟨a, hmem, (samePerson_iff a a).mpr rfl⟩)
    simp [List.nodup_append, h, hnot]

theorem removeActor_nodup (a : Person) (l : List Person) (h : l.Nodup) :
    (removeActor a l).Nodup :=
  h.filter _

theorem addActor_mem_eq (a : Person) (l : List Person) (h : a ∈ l) :
    addActor a l = l := by
  have hany : (l.any fun x => samePerson x a) = true :=
    List.any_eq_true.mpr ⟨a, h, (samePerson_iff a a).mpr rfl⟩
  unfold addActor
  rw [if_pos hany]

/-- Claim C9: every sequence of addActor/removeActor calls preserves
duplicate-freedom of the selected-actors list, and addActor with an
already-present name pair leaves the list unchanged. -/
theorem actor_ops_preserve_nodup :
    (∀ (ops : List ActorOp) (l : List Person), l.Nodup →
      (applyActorOps ops l).Nodup) ∧
    (∀ (a : Person) (l : List Person), a ∈ l → addActor a l = l) := by
  constructor
  · intro ops
    induction ops with
    | nil => intro l h; exact h
    | cons op rest ih =>
      intro l h
      cases op with
      | add p => exact ih _ (addActor_nodup p l h)
      | remove p => exact ih _ (removeActor_nodup p l h)
  · exact addActor_mem_eq

/-- Witness for C9 on a concrete list and operation sequence. -/
theorem actor_ops_preserve_nodup_witness :
    (applyActorOps
      [ActorOp.add ⟨"Jane", "Doe"⟩, ActorOp.remove ⟨"John", "Smith"⟩]
      [⟨"John", "Smith"⟩]).Nodup ∧
    addActor ⟨"John", "Smith"⟩ [⟨"John", "Smith"⟩] = [⟨"John", "Smith"⟩] :=
  ⟨actor_ops_preserve_nodup.1 _ _ (by simp),
   actor_ops_preserve_nodup.2 _ _ (by simp)⟩

/-- Result of the JavaScript String.prototype.repeat for a non-negative
count: the string concatenated count times. -/
def repeatStr (s : String) : Nat → String
  | 0 => ""
  | n + 1 => s ++ repeatStr s n

/-- JavaScript String.prototype.repeat on an integer count: throws a
RangeError (none) for a negative count, else repeats. -/
def jsRepeat (s : String) (count : Int) : Option String :=
  if count < 0 then none else some (repeatStr s count.toNat)

/-- The two star spans MovieCard renders
(web/src/pages/AddMoviePage.tsx lines 324-325): the filled stars repeat
the star glyph rating times, the empty stars 5 minus rating times;
either repeat fails when its count is negative. -/
def starSpans (rating : Int) : Option (String × String) :=
  match jsRepeat "★" rating, jsRepeat "★" (5 - rating) with
  | some f, some e => some (f, e)
  | _, _ => none

theorem repeatStr_length (s : String) (n : Nat) :
    (repeatStr s n).length = n * s.length := by
  induction n with
  | zero => simp [repeatStr]
  | succ n ih => simp [repeatStr, String.length_append, ih, Nat.succ_mul, Nat.add_comm]

/-- Claim C10: for an integer rating with 0 ≤ rating ≤ 5 the star
rendering of MovieCard is total, shows rating filled glyphs, and shows
five glyphs in all; the negative-count failure of repeat is
unreachable. -/
theorem movieCard_stars_total (r : Int) (h0 : 0 ≤ r) (h5 : r ≤ 5) :
    (starSpans r).isSome = true ∧
    (starSpans r).map (fun p => p.1.length) = some r.toNat ∧
    (starSpans r).map (fun p => p.1.length + p.2.length) = some 5 := by
  have h1 : ¬ r < 0 := by omega
  have h2 : ¬ 5 - r < 0 := by omega
  have hstar : ("★" : String).length = 1 := by decide
  have hsum : r.toNat + (5 - r).toNat = 5 := by omega
  unfold starSpans jsRepeat
  rw [if_neg h1, if_neg h2]
  simp [repeatStr_length, hstar, hsum]

/-- Witness for C10 at rating three: three filled and two empty glyphs. -/
theorem movieCard_stars_total_witness :
    (starSpans 3).isSome = true ∧
    (starSpans 3).map (fun p => p.1.length) = some 3 ∧
    (starSpans 3).map (fun p => p.1.length + p.2.length) = some 5 := by
  have h := movieCard_stars_total 3 (by decide) (by decide)
  simpa using h

end Nettileffa
